import Mathlib

/-!
Verification of the sphinxcontrib-sadisplay Sphinx extension
(src/sphinxcontrib/sadisp.py) against its natural-language specification.

The Python module is shallowly embedded: pure functions become Lean
functions, the filesystem and the subprocess-launch count become explicit
state (`FsState`), exceptions become `Except PyError`, and the external
collaborators (the `sadisplay` description library, the docutils/sphinx
builder, the subprocess runner) become fields of an environment record
`Env`.  Python-3 semantics are modelled (setup.py declares
`Programming Language :: Python :: 3`): in particular `str + bytes`
raises `TypeError`, and falling off an `if/elif` chain that binds a local
leads to `UnboundLocalError` at the later use of that local.
-/

set_option maxRecDepth 100000

/-! ### Python string helpers -/

/-- Python `str.split(sep)` for a one-character separator, as used by
`tolist` in `SadisplayDirective.run` (`val.split(',')`). -/
def pySplitOn (sep : String) (s : String) : List String :=
  s.splitOn sep

/-- Worker for `pySplitWhitespace`: `acc` holds the current field's
characters in reverse. -/
def splitWsAux : List Char → List Char → List String
  | [], acc => if acc.isEmpty then [] else [String.mk acc.reverse]
  | c :: rest, acc =>
      if c.isWhitespace then
        (if acc.isEmpty then [] else [String.mk acc.reverse]) ++ splitWsAux rest []
      else splitWsAux rest (c :: acc)

/-- Python `str.split()` with no argument: split on whitespace runs,
dropping empty fields.  Used for `'-pipe -charset utf-8'.split()`. -/
def pySplitWhitespace (s : String) : List String :=
  splitWsAux s.data []

/-- Python `str.strip()` (whitespace on both ends). -/
def pyStrip (s : String) : String :=
  s.trim

/-- Python `repr` of a string: the string in single quotes.  (Escaping of
embedded quotes is not modelled; no theorem below depends on it.) -/
def pyReprStr (s : String) : String :=
  "'" ++ s ++ "'"

/-- Python `repr` of a list of strings, e.g. `['dot', '-Tpng']`;
this is what `'%r' % command` produces for a command list. -/
def pyReprStrList (l : List String) : String :=
  "[" ++ String.intercalate ", " (l.map pyReprStr) ++ "]"

/-! ### UTF-8 encoding

The source hashes `content.encode('utf-8')`; we model the encoding
concretely so that the content hash is computed over the real byte
sequence. -/

/-- Standard UTF-8 encoding of a single code point (as byte values). -/
def utf8EncodeCp (c : Nat) : List Nat :=
  if c < 0x80 then [c]
  else if c < 0x800 then
    [0xC0 ||| (c >>> 6), 0x80 ||| (c &&& 0x3F)]
  else if c < 0x10000 then
    [0xE0 ||| (c >>> 12), 0x80 ||| ((c >>> 6) &&& 0x3F), 0x80 ||| (c &&& 0x3F)]
  else
    [0xF0 ||| (c >>> 18), 0x80 ||| ((c >>> 12) &&& 0x3F),
     0x80 ||| ((c >>> 6) &&& 0x3F), 0x80 ||| (c &&& 0x3F)]

/-- Python `s.encode('utf-8')` as a list of byte values. -/
def utf8Bytes (s : String) : List Nat :=
  (s.data.map (fun ch => utf8EncodeCp ch.toNat)).flatten

/-! ### SHA-1 (hashlib.sha1)

`generate_name` keys the output file on
`sha1(content.encode('utf-8')).hexdigest()`.  We implement SHA-1
(FIPS 180) concretely over byte lists, with 32-bit words as `Nat` values
reduced mod 2^32. -/

/-- Left rotation of a 32-bit word. -/
def rotl32 (n x : Nat) : Nat :=
  ((x <<< n) ||| (x >>> (32 - n))) % 4294967296

/-- Big-endian byte decomposition: most significant byte first. -/
def beBytes : Nat → Nat → List Nat
  | 0, _ => []
  | n + 1, v => (v >>> (8 * n)) % 256 :: beBytes n v

/-- SHA-1 message padding: append 0x80, zero bytes to 56 mod 64, then the
bit length as an 8-byte big-endian integer. -/
def sha1Pad (msg : List Nat) : List Nat :=
  let len := msg.length
  let zeros := (119 - len % 64) % 64
  msg ++ [0x80] ++ List.replicate zeros 0 ++ beBytes 8 (len * 8)

/-- Fuel-driven worker for `chunks64`; structural recursion on the fuel so
that the kernel can evaluate it. -/
def chunks64Aux : Nat → List Nat → List (List Nat)
  | 0, _ => []
  | _ + 1, [] => []
  | fuel + 1, l => l.take 64 :: chunks64Aux fuel (l.drop 64)

/-- Split a byte list into 64-byte chunks. -/
def chunks64 (l : List Nat) : List (List Nat) :=
  chunks64Aux l.length l

/-- Combine four bytes into one big-endian 32-bit word. -/
def word32 (a b c d : Nat) : Nat :=
  (a <<< 24) ||| (b <<< 16) ||| (c <<< 8) ||| d

/-- The sixteen 32-bit words of a 64-byte chunk. -/
def sha1Words : List Nat → List Nat
  | a :: b :: c :: d :: rest => word32 a b c d :: sha1Words rest
  | _ => []

/-- Message-schedule expansion from 16 to 80 words. -/
def sha1Extend (ws : List Nat) : List Nat :=
  (List.range 64).foldl
    (fun acc i =>
      acc ++ [rotl32 1 ((acc.getD (i + 13) 0) ^^^ (acc.getD (i + 8) 0) ^^^
                        (acc.getD (i + 2) 0) ^^^ (acc.getD i 0))])
    ws

/-- SHA-1 working state: the five 32-bit registers. -/
structure Sha1State where
  a : Nat
  b : Nat
  c : Nat
  d : Nat
  e : Nat
deriving Repr, DecidableEq

/-- One SHA-1 round: round index `t`, schedule word `wt`. -/
def sha1Round (st : Sha1State) (t wt : Nat) : Sha1State :=
  let f :=
    if t < 20 then (st.b &&& st.c) ||| ((st.b ^^^ 4294967295) &&& st.d)
    else if t < 40 then st.b ^^^ st.c ^^^ st.d
    else if t < 60 then (st.b &&& st.c) ||| (st.b &&& st.d) ||| (st.c &&& st.d)
    else st.b ^^^ st.c ^^^ st.d
  let k :=
    if t < 20 then 0x5A827999
    else if t < 40 then 0x6ED9EBA1
    else if t < 60 then 0x8F1BBCDC
    else 0xCA62C1D6
  { a := (rotl32 5 st.a + f + st.e + k + wt) % 4294967296
    b := st.a
    c := rotl32 30 st.b
    d := st.c
    e := st.d }

/-- Process one 64-byte chunk, updating the running hash registers. -/
def sha1Chunk (h : Sha1State) (chunk : List Nat) : Sha1State :=
  let ws := sha1Extend (sha1Words chunk)
  let st := ws.enum.foldl (fun st p => sha1Round st p.1 p.2) h
  { a := (h.a + st.a) % 4294967296
    b := (h.b + st.b) % 4294967296
    c := (h.c + st.c) % 4294967296
    d := (h.d + st.d) % 4294967296
    e := (h.e + st.e) % 4294967296 }

/-- SHA-1 digest of a byte list, as the 20 digest bytes. -/
def sha1Digest (msg : List Nat) : List Nat :=
  let init : Sha1State :=
    { a := 0x67452301, b := 0xEFCDAB89, c := 0x98BADCFE,
      d := 0x10325476, e := 0xC3D2E1F0 }
  let fin := (chunks64 (sha1Pad msg)).foldl sha1Chunk init
  beBytes 4 fin.a ++ beBytes 4 fin.b ++ beBytes 4 fin.c ++
    beBytes 4 fin.d ++ beBytes 4 fin.e

/-- Lower-case hex character for a value below 16. -/
def hexChar (n : Nat) : Char :=
  if n < 10 then Char.ofNat (48 + n) else Char.ofNat (87 + n)

/-- Two-character lower-case hex rendering of a byte. -/
def byteHex (b : Nat) : String :=
  String.mk [hexChar (b / 16), hexChar (b % 16)]

/-- `hashlib.sha1(bytes).hexdigest()`: 40 lower-case hex characters. -/
def sha1Hexdigest (msg : List Nat) : String :=
  String.join ((sha1Digest msg).map byteHex)

/-! ### Python truthiness -/

/-- Python truthiness of an optional string (`None` and `''` are falsy),
as in `node['render'] or self.builder.config.sadisplay_default_render`
and `if imgpath:`. -/
def pyTruthyStr : Option String → Bool
  | some s => s ≠ ""
  | none => false

/-- Python `a or b` on an optional string with a string default. -/
def pyOrStr (v : Option String) (dflt : String) : String :=
  match v with
  | some s => if s = "" then dflt else s
  | none => dflt

/-! ### posixpath.join (two components)

`os.path.join` is Python standard library; modelled for POSIX paths and
the two-component calls the source makes. -/

/-- Whether a path is absolute (starts with a slash). -/
def isAbsPath (p : String) : Bool :=
  p.data.head? = some '/'

/-- Whether a path ends with a slash. -/
def endsWithSlash (p : String) : Bool :=
  p.data.getLast? = some '/'

/-- Modelled `os.path.join(a, b)` for POSIX paths. -/
def pathJoin (a b : String) : String :=
  if isAbsPath b then b
  else if a = "" || endsWithSlash a then a ++ b
  else a ++ "/" ++ b

/-! ### Data model -/

/-- A module attribute value as seen by the introspection loop: all the
render pipeline ever asks of it is its `__name__` attribute, which may be
absent (then `i.__name__` raises `AttributeError`). -/
structure PyObject where
  name? : Option String
deriving Repr, DecidableEq

/-- One entry of `dir(module)` paired with whether `getattr`/`repr` raises
for it (the collection loop at lines 142-153 silently drops such
attributes via the bare `except`). -/
structure ModuleAttr where
  value : PyObject
  reprRaises : Bool
deriving Repr, DecidableEq

/-- The placeholder node built by `SadisplayDirective.run`: the `SaNode`
docutils element, carrying exactly the parsed directive options. -/
structure SaNode where
  alt : Option String
  link : Bool
  render : Option String
  module : List String
  include' : List String
  exclude : List String
deriving Repr, DecidableEq

/-- The raw directive options as docutils hands them to `run`:
`directives.unchanged` values are optional strings, `link` is a presence
flag (`'link' in self.options`). -/
structure DirectiveOptions where
  alt : Option String
  link : Bool
  render : Option String
  module : Option String
  include' : Option String
  exclude : Option String
deriving Repr, DecidableEq

/-- A builder config value for `plantuml` / `graphviz`: the source accepts
a single string or a list of strings (`isinstance(..., str)` test). -/
inductive ConfigVal where
  | str (s : String)
  | list (l : List String)
deriving Repr, DecidableEq

/-- Outcome of launching the external renderer: `Popen` may raise `OSError`
with some errno, otherwise the process exits with a return code and bytes
on its error stream (`communicate` returns `bytes` — no text mode). -/
inductive SubprocBehavior where
  | oserror (errno : Nat)
  | exited (returncode : Int) (serr : List Nat)
deriving Repr, DecidableEq

/-- The errno compared against at line 123. -/
def ENOENT : Nat := 2

/-- The Python exceptions the embedded pipeline can raise. -/
inductive PyError where
  /-- `SphinxWarning`, raised by the directive for the include/exclude
  clash — the parse-time configuration error. -/
  | sphinxWarning (msg : String)
  /-- `RendererError` (a `SphinxError` subclass defined in the source). -/
  | rendererError (msg : String)
  /-- `ImportError` from `__import__` of an unresolvable module name. -/
  | importError (moduleName : String)
  /-- An `OSError` from `Popen` re-raised because its errno is not
  `ENOENT` (line 124). -/
  | oserror (errno : Nat)
  /-- `TypeError` — under Python 3, line 128 concatenates `str + bytes`. -/
  | typeError (msg : String)
  /-- `UnboundLocalError` — fall-through of the backend `if/elif` chain
  leaves `content` (and `command`) unbound at line 187. -/
  | unboundLocalError (varName : String)
deriving Repr, DecidableEq

/-- Python `str(err)` for each modelled exception (the text interpolated
by `'sadisplay render error: %s' % err` in the visitors). -/
def pyStr : PyError → String
  | .sphinxWarning msg => msg
  | .rendererError msg => msg
  | .importError m => "No module named " ++ pyReprStr m
  | .oserror errno => "OSError errno " ++ toString errno
  | .typeError msg => msg
  | .unboundLocalError v =>
      "cannot access local variable " ++ pyReprStr v ++
        " where it is not associated with a value"

/-- Whether an exception is the configuration-error kind of the spec
(its section 7 item (a): the `SphinxWarning` raised at parse or
pipeline-selection time). -/
def PyError.isConfigurationError : PyError → Bool
  | .sphinxWarning _ => true
  | _ => false

/-- Filesystem-and-subprocess state threaded through the pipeline:
the set of existing file paths and how many times the external renderer
was launched. -/
structure FsState where
  files : List String
  launches : Nat
deriving Repr, DecidableEq

/-- The environment: the Sphinx builder attributes and config values the
source reads, the external `sadisplay` library, the docutils translator
services, and the behaviour of the external renderer process. -/
structure Env where
  /-- `self.builder.imgpath` (absent or empty means the flat layout). -/
  imgpath : Option String
  /-- `self.builder.outdir`. -/
  outdir : String
  /-- config value `plantuml`. -/
  plantuml : ConfigVal
  /-- config value `graphviz`. -/
  graphviz : ConfigVal
  /-- config value `sadisplay_default_render` (registered default
  `"graphviz"`). -/
  sadisplay_default_render : String
  /-- `__import__` plus the attribute-collection loop input: for each
  module name, `none` if the import raises `ImportError`, otherwise the
  module's `dir` entries. -/
  modules : String → Option (List ModuleAttr)
  /-- external `sadisplay.describe` (its result is opaque; serialized
  downstream). -/
  describe : List PyObject → String
  /-- external `sadisplay.plantuml` serializer. -/
  sadisplay_plantuml : String → String
  /-- external `sadisplay.dot` serializer. -/
  sadisplay_dot : String → String
  /-- `subprocess.Popen` + `communicate`, as a function of the command
  and the text written to the child's stdin. -/
  popen : List String → String → SubprocBehavior
  /-- docutils translator `self.encode`. -/
  encode : String → String
  /-- docutils `self.starttag(node, 'p', CLASS='sadisplay')`. -/
  starttag : SaNode → String

/-! ### The embedded source functions -/

/-- The `tolist` closure inside `SadisplayDirective.run` (lines 65-68):
`None` and `''` give `[]`, otherwise split on `','` and strip each
element. -/
def tolist : Option String → List String
  | some v => if v = "" then [] else (pySplitOn "," v).map pyStrip
  | none => []

/-- The message of the `SphinxWarning` raised at lines 75-76; the Python
backslash-newline continuation keeps the next line's 20-space indent. -/
def bothIncludeExcludeMsg : String :=
  "sadisplay directive error - " ++
    "                    both defined :include: and :exclude:"

/-- `SadisplayDirective.run` (lines 59-78): build the `SaNode` from the
options, raise `SphinxWarning` when both `include` and `exclude` parse to
non-empty lists, otherwise return the one-node list. -/
def SadisplayDirective.run (opts : DirectiveOptions) :
    Except PyError (List SaNode) :=
  let node : SaNode :=
    { alt := opts.alt
      link := opts.link
      render := opts.render
      module := tolist (some (opts.module.getD ""))
      include' := tolist opts.include'
      exclude := tolist opts.exclude }
  if !node.include'.isEmpty && !node.exclude.isEmpty then
    .error (.sphinxWarning bothIncludeExcludeMsg)
  else
    .ok [node]

/-- `generate_name` (lines 81-89): key the file name on the SHA-1 hex
digest of the UTF-8 bytes of the content; return
`(reference path, output file path)`. -/
def generate_name (env : Env) (content : String) : String × String :=
  let key := sha1Hexdigest (utf8Bytes content)
  let fname := "sadisplay-" ++ key ++ ".png"
  if pyTruthyStr env.imgpath then
    (env.imgpath.getD "" ++ "/" ++ fname,
     pathJoin (pathJoin env.outdir "_images") fname)
  else
    (fname, pathJoin env.outdir fname)

/-- `generate_plantuml_args` (lines 92-98): wrap a string config value in
a singleton list, copy a list value, then extend with
`'-pipe -charset utf-8'.split()`. -/
def generate_plantuml_args (env : Env) : List String :=
  (match env.plantuml with
   | .str s => [s]
   | .list l => l) ++ pySplitWhitespace "-pipe -charset utf-8"

/-- `generate_graphviz_args` (lines 101-106): wrap a string config value
in a singleton list, copy a list value; nothing is appended. -/
def generate_graphviz_args (env : Env) : List String :=
  match env.graphviz with
  | .str s => [s]
  | .list l => l

/-- `render_image` (lines 109-131).  If the output file already exists the
reference path is returned at once (the content-addressed cache).
Otherwise the file is opened for writing — which creates it — before
`Popen` is attempted; the `finally` block only closes the file, so the
file stays in place on every failure path.  Under Python 3 the non-zero
exit branch raises `TypeError` at line 128: `('error while running %r' %
command) + serr` concatenates `str` with the `bytes` that `communicate`
returned. -/
def render_image (env : Env) (st : FsState) (content : String)
    (command : List String) : Except PyError String × FsState :=
  let refname := (generate_name env content).1
  let outfname := (generate_name env content).2
  if st.files.contains outfname then
    (.ok refname, st)
  else
    let st' : FsState :=
      { files := outfname :: st.files, launches := st.launches + 1 }
    match env.popen command content with
    | .oserror errno =>
        if errno ≠ ENOENT then
          (.error (.oserror errno), st')
        else
          (.error (.rendererError
            ("command " ++ pyReprStrList command ++ " cannot be run")), st')
    | .exited returncode _serr =>
        if returncode ≠ 0 then
          (.error (.typeError
            "can only concatenate str (not \"bytes\") to str"), st')
        else
          (.ok refname, st')

/-- The attribute-collection loop (lines 142-153): keep every `dir` entry
whose `getattr`/`repr` does not raise, in enumeration order. -/
def collectAttrs (attrs : List ModuleAttr) : List PyObject :=
  (attrs.filter (fun a => !a.reprRaises)).map (fun a => a.value)

/-- The module loop of `render` (lines 136-153): import each module in
order — an unresolvable name raises `ImportError`, uncaught — and append
its surviving attributes to `all_names`. -/
def importAll (env : Env) : List String → Except PyError (List PyObject)
  | [] => .ok []
  | m :: rest =>
      match env.modules m with
      | none => .error (.importError m)
      | some attrs =>
          match importAll env rest with
          | .error e => .error e
          | .ok tail => .ok (collectAttrs attrs ++ tail)

/-- The `exclude` filter loop (lines 157-163): keep a candidate when its
`__name__` exists and is not in the exclude list; a candidate without
`__name__` raises `AttributeError`, which is swallowed (the candidate is
dropped). -/
def excludeLoop (excl : List String) : List PyObject → List PyObject
  | [] => []
  | i :: rest =>
      match i.name? with
      | some n =>
          if excl.contains n then excludeLoop excl rest
          else i :: excludeLoop excl rest
      | none => excludeLoop excl rest

/-- The `include` filter loop (lines 165-171): keep a candidate when its
`__name__` exists and is in the include list; nameless candidates are
dropped the same way. -/
def includeLoop (incl : List String) : List PyObject → List PyObject
  | [] => []
  | i :: rest =>
      match i.name? with
      | some n =>
          if incl.contains n then i :: includeLoop incl rest
          else includeLoop incl rest
      | none => includeLoop incl rest

/-- The filtering stage of `render` (lines 155-174): the `exclude` branch
wins when non-empty, then the `include` branch, else everything is kept. -/
def filterNames (incl excl : List String) (all_names : List PyObject) :
    List PyObject :=
  if !excl.isEmpty then excludeLoop excl all_names
  else if !incl.isEmpty then includeLoop incl all_names
  else all_names

/-- `render` (lines 134-187): import and collect, filter, describe, pick
the backend (`node['render'] or` the configured default), serialize and
render.  A backend that is neither `"plantuml"` nor `"graphviz"` falls
through the `if/elif` chain and line 187 then reads the never-assigned
local `content`: `UnboundLocalError`. -/
def render (env : Env) (st : FsState) (node : SaNode) :
    Except PyError String × FsState :=
  match importAll env node.module with
  | .error e => (.error e, st)
  | .ok all_names =>
      let names := filterNames node.include' node.exclude all_names
      let desc := env.describe names
      let r := pyOrStr node.render env.sadisplay_default_render
      if r = "plantuml" then
        render_image env st (env.sadisplay_plantuml desc)
          (generate_plantuml_args env)
      else if r = "graphviz" then
        render_image env st (env.sadisplay_dot desc)
          (generate_graphviz_args env)
      else
        (.error (.unboundLocalError "content"), st)

/-- What a visitor leaves behind: warnings emitted through `warn`, the
strings appended to `self.body`, and whether `nodes.SkipNode` was raised
(both the error path and the success path raise it, so the build moves on
to the next node either way). -/
structure VisitOutcome where
  warnings : List String
  body : List String
  skip : Bool
deriving Repr, DecidableEq

/-- The alternate text `node['alt'] or node['module']` (line 205): the
`alt` option when truthy, else the module-name list, which the `%s`
interpolation renders with Python `repr`. -/
def altOrModule (node : SaNode) : String :=
  match node.alt with
  | some a => if a = "" then pyReprStrList node.module else a
  | none => pyReprStrList node.module

/-- `html_visit` (lines 190-208): any pipeline exception is caught, logged
and turned into a warning plus `SkipNode` with nothing appended to the
body; on success a `<p>` block is appended containing a hyperlink when
`link` is set and an `<img>` tag otherwise. -/
def html_visit (env : Env) (st : FsState) (node : SaNode) :
    VisitOutcome × FsState :=
  match render env st node with
  | (.error err, st') =>
      ({ warnings := ["sadisplay render error: " ++ pyStr err]
         body := []
         skip := true }, st')
  | (.ok refname, st') =>
      let filled :=
        if node.link then
          "<a href=\"" ++ env.encode refname ++ "\">" ++
            env.encode (altOrModule node) ++ "</a>\n"
        else
          "<img src=\"" ++ env.encode refname ++ "\" alt=\"" ++
            env.encode (altOrModule node) ++ "\" />\n"
      ({ warnings := []
         body := [env.starttag node, filled, "</p>\n"]
         skip := true }, st')

/-- `latex_visit` (lines 211-218): same catch-all error handling; on
success a single `\includegraphics` line is appended. -/
def latex_visit (env : Env) (st : FsState) (node : SaNode) :
    VisitOutcome × FsState :=
  match render env st node with
  | (.error err, st') =>
      ({ warnings := ["sadisplay render error: " ++ pyStr err]
         body := []
         skip := true }, st')
  | (.ok refname, st') =>
      ({ warnings := []
         body := ["\\includegraphics\x7b" ++ env.encode refname ++ "\x7d"]
         skip := true }, st')

/-! ### Concrete fixtures for witnesses and counterexamples -/

/-- A candidate named `A`. -/
def attrA : ModuleAttr := { value := { name? := some "A" }, reprRaises := false }

/-- A candidate named `B`. -/
def attrB : ModuleAttr := { value := { name? := some "B" }, reprRaises := false }

/-- A candidate named `C`. -/
def attrC : ModuleAttr := { value := { name? := some "C" }, reprRaises := false }

/-- The empty filesystem, no renderer launched yet. -/
def fs0 : FsState := { files := [], launches := 0 }

/-- A concrete environment: image-directory layout, graphviz default,
a renderer that succeeds, and one importable module `myapp.model`. -/
def env0 : Env :=
  { imgpath := some "_images"
    outdir := "/out"
    plantuml := .str "plantuml"
    graphviz := .str "dot"
    sadisplay_default_render := "graphviz"
    modules := fun m =>
      if m = "myapp.model" then some [attrA, attrB, attrC] else none
    describe := fun _ => ""
    sadisplay_plantuml := fun d => d
    sadisplay_dot := fun d => d
    popen := fun _ _ => .exited 0 []
    encode := fun s => s
    starttag := fun _ => "<p class=\"sadisplay\">" }

/-- A node with no modules, all options absent. -/
def node0 : SaNode :=
  { alt := none, link := false, render := none,
    module := [], include' := [], exclude := [] }

/-- A node asking for an unsupported backend. -/
def nodeFoo : SaNode := { node0 with render := some "foo" }

/-- An environment whose renderer exits with status 1 after writing the
bytes of "boom" to its error stream. -/
def envBoom : Env := { env0 with popen := fun _ _ => .exited 1 (utf8Bytes "boom") }

/-- An environment whose renderer executable is missing: `Popen` raises
`OSError` with errno `ENOENT`. -/
def envNoExe : Env := { env0 with popen := fun _ _ => .oserror ENOENT }

/-- A node naming a module that cannot be imported. -/
def nodeNoModule : SaNode := { node0 with module := ["nosuch"] }

/-! ### Proof-support lemmas -/

/-- Sanity check of the SHA-1 implementation against the FIPS 180 test
vector for the message "abc". -/
theorem sha1Hexdigest_abc :
    sha1Hexdigest (utf8Bytes "abc") = "a9993e364706816aba3e25717850c26c9cd0d89d" := by
  decide

/-- Left cancellation for string append. -/
lemma string_append_cancel_left {a x y : String} (h : a ++ x = a ++ y) :
    x = y := by
  apply String.ext
  have hd := congrArg String.data h
  rw [String.data_append, String.data_append] at hd
  exact List.append_cancel_left hd

/-- Right cancellation for string append. -/
lemma string_append_cancel_right {x y b : String} (h : x ++ b = y ++ b) :
    x = y := by
  apply String.ext
  have hd := congrArg String.data h
  rw [String.data_append, String.data_append] at hd
  exact List.append_cancel_right hd

/-- Different digests give different `sadisplay-<digest>.png` names. -/
lemma sadisplay_fname_inj {k1 k2 : String}
    (h : "sadisplay-" ++ k1 ++ ".png" = "sadisplay-" ++ k2 ++ ".png") :
    k1 = k2 :=
  string_append_cancel_left (string_append_cancel_right h)

/-- A `sadisplay-<digest>.png` name is never an absolute path. -/
lemma sadisplay_fname_not_abs (k : String) :
    isAbsPath ("sadisplay-" ++ k ++ ".png") = false := by
  have hd : ("sadisplay-" ++ k ++ ".png").data
      = 's' :: ("adisplay-" ++ k ++ ".png").data := by
    rw [String.data_append, String.data_append,
        String.data_append, String.data_append]
    rfl
  simp [isAbsPath, hd]

/-- Joining the same base with two relative names is injective in the
name. -/
lemma pathJoin_right_inj (B : String) {f1 f2 : String}
    (h1 : isAbsPath f1 = false) (h2 : isAbsPath f2 = false)
    (h : pathJoin B f1 = pathJoin B f2) : f1 = f2 := by
  unfold pathJoin at h
  rw [h1, h2] at h
  simp only [Bool.false_eq_true, if_false] at h
  by_cases hb : (B = "" || endsWithSlash B) = true
  · rw [if_pos hb, if_pos hb] at h
    exact string_append_cancel_left h
  · rw [if_neg hb, if_neg hb] at h
    exact string_append_cancel_left h

/-- Different content digests give different reference paths and
different output file paths. -/
lemma generate_name_inj (env : Env) {T1 T2 : String}
    (hk : sha1Hexdigest (utf8Bytes T1) ≠ sha1Hexdigest (utf8Bytes T2)) :
    (generate_name env T1).1 ≠ (generate_name env T2).1 ∧
    (generate_name env T1).2 ≠ (generate_name env T2).2 := by
  unfold generate_name
  by_cases him : pyTruthyStr env.imgpath = true
  · rw [him]
    simp only [if_true]
    constructor
    · intro he
      exact hk (sadisplay_fname_inj (string_append_cancel_left
        (x := "sadisplay-" ++ sha1Hexdigest (utf8Bytes T1) ++ ".png") he))
    · intro he
      exact hk (sadisplay_fname_inj
        (pathJoin_right_inj _ (sadisplay_fname_not_abs _)
          (sadisplay_fname_not_abs _) he))
  · rw [Bool.not_eq_true] at him
    rw [him]
    simp only [Bool.false_eq_true, if_false]
    constructor
    · intro he
      exact hk (sadisplay_fname_inj he)
    · intro he
      exact hk (sadisplay_fname_inj
        (pathJoin_right_inj _ (sadisplay_fname_not_abs _)
          (sadisplay_fname_not_abs _) he))

/-- After any call of `render_image` — cache hit, renderer success or any
failure — the output file exists: the cache-hit branch presupposes it and
every other branch opened it for writing before launching the renderer. -/
lemma render_image_mem_after (env : Env) (st : FsState) (content : String)
    (command : List String) :
    (render_image env st content command).2.files.contains
      (generate_name env content).2 = true := by
  simp only [render_image]
  by_cases hc : st.files.contains (generate_name env content).2 = true
  · rw [if_pos hc]
    exact hc
  · rw [if_neg hc]
    split <;> split <;> simp

/-- When the output file already exists, `render_image` returns the
reference path at once and changes nothing. -/
lemma render_image_hit (env : Env) (st : FsState) (content : String)
    (command : List String)
    (hc : st.files.contains (generate_name env content).2 = true) :
    render_image env st content command =
      (.ok (generate_name env content).1, st) := by
  simp only [render_image]
  rw [if_pos hc]

/-- A successful `render_image` call returns exactly the reference path
computed by `generate_name`. -/
lemma render_image_ok_val (env : Env) (st : FsState) (content : String)
    (command : List String) (r : String) (st1 : FsState)
    (h : render_image env st content command = (.ok r, st1)) :
    r = (generate_name env content).1 := by
  simp only [render_image] at h
  by_cases hc : st.files.contains (generate_name env content).2 = true
  · rw [if_pos hc] at h
    have := congrArg Prod.fst h
    simp at this
    exact this.symm
  · rw [if_neg hc] at h
    split at h <;> split at h <;> injection h with h1 h2 <;>
      first
      | exact (Except.ok.inj h1).symm
      | injection h1

/-- The `exclude` loop keeps exactly the named candidates whose name is
not excluded, in order: it is a `List.filter`. -/
lemma excludeLoop_eq_filter (excl : List String) (l : List PyObject) :
    excludeLoop excl l = l.filter (fun i =>
      match i.name? with
      | some n => !excl.contains n
      | none => false) := by
  induction l with
  | nil => rfl
  | cons i rest ih =>
      cases hn : i.name? with
      | none => simp [excludeLoop, hn, List.filter_cons, ih]
      | some n =>
          by_cases hc : excl.contains n <;>
            simp [excludeLoop, hn, hc, List.filter_cons, ih]

/-- The `include` loop keeps exactly the named candidates whose name is
included, in order: it is a `List.filter`. -/
lemma includeLoop_eq_filter (incl : List String) (l : List PyObject) :
    includeLoop incl l = l.filter (fun i =>
      match i.name? with
      | some n => incl.contains n
      | none => false) := by
  induction l with
  | nil => rfl
  | cons i rest ih =>
      cases hn : i.name? with
      | none => simp [includeLoop, hn, List.filter_cons, ih]
      | some n =>
          by_cases hc : incl.contains n <;>
            simp [includeLoop, hn, hc, List.filter_cons, ih]

/-- The alternate text is the `alt` option when it is truthy, else the
module list rendered the way `%s` renders a Python list. -/
lemma altOrModule_eq (node : SaNode) :
    altOrModule node =
      (if pyTruthyStr node.alt then node.alt.getD ""
       else pyReprStrList node.module) := by
  cases ha : node.alt with
  | none => simp [altOrModule, pyTruthyStr, ha]
  | some a =>
      by_cases h0 : a = "" <;> simp [altOrModule, pyTruthyStr, ha, h0]

/-! ### Claim theorems -/

/-- C1: for every diagram-description text, state and command, a second
`render_image` call right after a first one returns the reference path of
the content's hashed name with the state unchanged — in particular the
renderer is not launched a second time — and when the first call
succeeded, it returned that same reference path. -/
theorem render_image_second_call_cached (env : Env) (st : FsState)
    (content : String) (command : List String)
    (r1 : Except PyError String) (st1 : FsState)
    (h : render_image env st content command = (r1, st1)) :
    render_image env st1 content command =
      (.ok (generate_name env content).1, st1) ∧
    (render_image env st1 content command).2.launches = st1.launches ∧
    ∀ r, r1 = .ok r → r = (generate_name env content).1 := by
  have hmem : st1.files.contains (generate_name env content).2 = true := by
    have hm := render_image_mem_after env st content command
    rw [h] at hm
    exact hm
  have h2 := render_image_hit env st1 content command hmem
  refine ⟨h2, by rw [h2], ?_⟩
  intro r hr
  rw [hr] at h
  exact render_image_ok_val env st content command r st1 h

/-- Witness for C1: a successful first render of the empty diagram text
under `env0`, followed by the cached second call. -/
theorem render_image_second_call_cached_witness :
    render_image env0
        { files := ["/out/_images/sadisplay-da39a3ee5e6b4b0d3255bfef95601890afd80709.png"],
          launches := 1 } "" ["dot"] =
      (.ok "_images/sadisplay-da39a3ee5e6b4b0d3255bfef95601890afd80709.png",
       { files := ["/out/_images/sadisplay-da39a3ee5e6b4b0d3255bfef95601890afd80709.png"],
         launches := 1 }) :=
  (render_image_second_call_cached env0 fs0 "" ["dot"]
    (.ok "_images/sadisplay-da39a3ee5e6b4b0d3255bfef95601890afd80709.png")
    { files := ["/out/_images/sadisplay-da39a3ee5e6b4b0d3255bfef95601890afd80709.png"],
      launches := 1 } rfl).1

/-- C2: `generate_name` depends only on the content: the file name is
`sadisplay-<SHA-1 hex digest of the UTF-8 bytes of the content>.png`;
texts with different digests get a different reference path and a
different output path, and equal texts get equal paths. -/
theorem generate_name_content_addressed (env : Env) (T1 T2 : String)
    (hcol : sha1Hexdigest (utf8Bytes T1) ≠ sha1Hexdigest (utf8Bytes T2)) :
    (generate_name env T1 =
      (let fname := "sadisplay-" ++ sha1Hexdigest (utf8Bytes T1) ++ ".png"
       if pyTruthyStr env.imgpath then
         (env.imgpath.getD "" ++ "/" ++ fname,
          pathJoin (pathJoin env.outdir "_images") fname)
       else (fname, pathJoin env.outdir fname))) ∧
    (generate_name env T1).1 ≠ (generate_name env T2).1 ∧
    (generate_name env T1).2 ≠ (generate_name env T2).2 ∧
    ∀ T3 T4 : String, T3 = T4 → generate_name env T3 = generate_name env T4 :=
  ⟨rfl, (generate_name_inj env hcol).1, (generate_name_inj env hcol).2,
   fun _ _ h => by rw [h]⟩

/-- Witness for C2 on the concrete pair "abc" / "abd". -/
theorem generate_name_content_addressed_witness :
    sha1Hexdigest (utf8Bytes "abc") ≠ sha1Hexdigest (utf8Bytes "abd") ∧
    (generate_name env0 "abc").1 ≠ (generate_name env0 "abd").1 :=
  ⟨by decide, (generate_name_content_addressed env0 "abc" "abd" (by decide)).2.1⟩

/-- C8: `render_image` opens the output file before launching the
subprocess, so after any failed render the file exists; every later call
with the same content then takes the cache-hit branch and returns the
reference path with the state — including the launch count — unchanged. -/
theorem render_image_failure_poisons_cache (env : Env) (st : FsState)
    (content : String) (command : List String) (e : PyError) (st1 : FsState)
    (h : render_image env st content command = (.error e, st1)) :
    st1.files.contains (generate_name env content).2 = true ∧
    render_image env st1 content command =
      (.ok (generate_name env content).1, st1) := by
  have hmem : st1.files.contains (generate_name env content).2 = true := by
    have hm := render_image_mem_after env st content command
    rw [h] at hm
    exact hm
  exact ⟨hmem, render_image_hit env st1 content command hmem⟩

/-- Witness for C8: the renderer exits with status 1, the first call
fails, and the second call serves the poisoned cache entry. -/
theorem render_image_failure_poisons_cache_witness :
    render_image envBoom
        { files := ["/out/_images/sadisplay-da39a3ee5e6b4b0d3255bfef95601890afd80709.png"],
          launches := 1 } "" ["dot"] =
      (.ok "_images/sadisplay-da39a3ee5e6b4b0d3255bfef95601890afd80709.png",
       { files := ["/out/_images/sadisplay-da39a3ee5e6b4b0d3255bfef95601890afd80709.png"],
         launches := 1 }) :=
  (render_image_failure_poisons_cache envBoom fs0 "" ["dot"]
    (.typeError "can only concatenate str (not \"bytes\") to str")
    { files := ["/out/_images/sadisplay-da39a3ee5e6b4b0d3255bfef95601890afd80709.png"],
      launches := 1 } rfl).2

/-- C5: directive parsing raises the configuration `SphinxWarning` (and
produces no node) exactly when both parsed lists are non-empty, and
otherwise returns exactly one placeholder node carrying the parsed
options. -/
theorem directive_run_spec (opts : DirectiveOptions) :
    SadisplayDirective.run opts =
      (if tolist opts.include' ≠ [] ∧ tolist opts.exclude ≠ [] then
         .error (.sphinxWarning bothIncludeExcludeMsg)
       else
         .ok [{ alt := opts.alt
                link := opts.link
                render := opts.render
                module := tolist (some (opts.module.getD ""))
                include' := tolist opts.include'
                exclude := tolist opts.exclude }]) := by
  simp only [SadisplayDirective.run]
  by_cases h1 : tolist opts.include' = [] <;>
    by_cases h2 : tolist opts.exclude = [] <;>
      simp [h1, h2]

/-- C6: the introspection filter keeps, in each branch, exactly the
candidates the claim describes, and it preserves the input order (the
result is a sublist of the candidate list). -/
theorem filterNames_spec (incl excl : List String) (all : List PyObject) :
    (filterNames incl excl all =
      if excl ≠ [] then
        all.filter (fun i =>
          match i.name? with
          | some n => !excl.contains n
          | none => false)
      else if incl ≠ [] then
        all.filter (fun i =>
          match i.name? with
          | some n => incl.contains n
          | none => false)
      else all) ∧
    (filterNames incl excl all).Sublist all := by
  have hf : filterNames incl excl all =
      (if excl ≠ [] then
        all.filter (fun i =>
          match i.name? with
          | some n => !excl.contains n
          | none => false)
      else if incl ≠ [] then
        all.filter (fun i =>
          match i.name? with
          | some n => incl.contains n
          | none => false)
      else all) := by
    unfold filterNames
    cases excl with
    | cons e es => simp [excludeLoop_eq_filter]
    | nil =>
        cases incl with
        | cons i is => simp [includeLoop_eq_filter]
        | nil => simp
  refine ⟨hf, ?_⟩
  rw [hf]
  by_cases hx : excl ≠ []
  · rw [if_pos hx]
    exact List.filter_sublist _
  · rw [if_neg hx]
    by_cases hi : incl ≠ []
    · rw [if_pos hi]
      exact List.filter_sublist _
    · rw [if_neg hi]

/-- C9: for every renderer configuration value (string or list), the
plantuml command is the value as an argument list with exactly `-pipe`,
`-charset`, `utf-8` appended in that order, and the graphviz command is
the value as an argument list with nothing appended. -/
theorem command_args_spec (env : Env) :
    generate_plantuml_args env =
      (match env.plantuml with
       | .str s => [s]
       | .list l => l) ++ ["-pipe", "-charset", "utf-8"] ∧
    generate_graphviz_args env =
      (match env.graphviz with
       | .str s => [s]
       | .list l => l) := by
  constructor
  · have hs : pySplitWhitespace "-pipe -charset utf-8" =
        ["-pipe", "-charset", "utf-8"] := by decide
    unfold generate_plantuml_args
    rw [hs]
  · rfl

/-- C3 counterexample: with backend "foo" (after defaulting) the pipeline
fails, but with an `UnboundLocalError` — the fall-through of the backend
`if/elif` chain — not with a configuration error. -/
theorem unsupported_backend_not_config_error :
    (render env0 fs0 nodeFoo).1 = .error (.unboundLocalError "content") ∧
    PyError.isConfigurationError (.unboundLocalError "content") = false :=
  ⟨rfl, rfl⟩

/-- C3 (amended): for every backend value that is neither "plantuml" nor
"graphviz" after defaulting, if the module-import stage succeeds the
pipeline fails with an `UnboundLocalError` (not a configuration error),
and both visitors catch it: one warning, no markup, the node is skipped
and the rest of the document build proceeds. -/
theorem unsupported_backend_behavior (env : Env) (st : FsState)
    (node : SaNode) (all_names : List PyObject)
    (him : importAll env node.module = .ok all_names)
    (h1 : pyOrStr node.render env.sadisplay_default_render ≠ "plantuml")
    (h2 : pyOrStr node.render env.sadisplay_default_render ≠ "graphviz") :
    render env st node = (.error (.unboundLocalError "content"), st) ∧
    html_visit env st node =
      ({ warnings := ["sadisplay render error: " ++
           pyStr (.unboundLocalError "content")],
         body := [], skip := true }, st) ∧
    latex_visit env st node =
      ({ warnings := ["sadisplay render error: " ++
           pyStr (.unboundLocalError "content")],
         body := [], skip := true }, st) := by
  have hr : render env st node = (.error (.unboundLocalError "content"), st) := by
    simp only [render, him]
    rw [if_neg h1, if_neg h2]
  refine ⟨hr, ?_, ?_⟩
  · unfold html_visit
    rw [hr]
  · unfold latex_visit
    rw [hr]

/-- Witness for C3's amended theorem at backend "foo". -/
theorem unsupported_backend_behavior_witness :
    render env0 fs0 nodeFoo = (.error (.unboundLocalError "content"), fs0) :=
  (unsupported_backend_behavior env0 fs0 nodeFoo [] rfl
    (by decide) (by decide)).1

/-- C4: every exception raised during the render pipeline is caught at
both visitor boundaries: the visitor emits exactly one warning naming the
error, appends no markup, and skips the node — it never lets the error
propagate and abort the document build. -/
theorem visitors_catch_pipeline_errors (env : Env) (st : FsState)
    (node : SaNode) (e : PyError)
    (h : (render env st node).1 = .error e) :
    html_visit env st node =
      ({ warnings := ["sadisplay render error: " ++ pyStr e],
         body := [], skip := true }, (render env st node).2) ∧
    latex_visit env st node =
      ({ warnings := ["sadisplay render error: " ++ pyStr e],
         body := [], skip := true }, (render env st node).2) := by
  rcases hre : render env st node with ⟨r, st'⟩
  rw [hre] at h
  simp at h
  subst h
  unfold html_visit latex_visit
  rw [hre]
  exact ⟨rfl, rfl⟩

/-- Witness for C4 with a failing module import. -/
theorem visitors_catch_pipeline_errors_witness :
    html_visit env0 fs0 nodeNoModule =
      ({ warnings := ["sadisplay render error: No module named 'nosuch'"],
         body := [], skip := true }, fs0) :=
  (visitors_catch_pipeline_errors env0 fs0 nodeNoModule
    (.importError "nosuch") rfl).1

/-- C7: at the failing input — a renderer that exits with status 1 after
writing "boom" to its error stream — line 128's `str + bytes`
concatenation raises `TypeError` under Python 3, so `render_image` does
not fail with the intended `RendererError`, and the error message does
not contain the captured error-stream text. -/
theorem nonzero_exit_raises_typeerror :
    render_image envBoom fs0 "text" ["plantuml", "-pipe", "-charset", "utf-8"] =
      (.error (.typeError "can only concatenate str (not \"bytes\") to str"),
       { files := [(generate_name envBoom "text").2], launches := 1 }) ∧
    ¬ List.IsInfix "boom".data
        "can only concatenate str (not \"bytes\") to str".data :=
  ⟨rfl, by decide⟩

/-- C10: for a successfully rendered node the HTML visitor warns nothing
and emits one paragraph: an image tag whose src is the reference path and
whose alt text is the `alt` option when truthy, else the module-name
list — or, when `link` is set, a hyperlink to the reference path
instead. -/
theorem html_visit_markup (env : Env) (st : FsState) (node : SaNode)
    (refname : String) (st' : FsState)
    (h : render env st node = (.ok refname, st')) :
    html_visit env st node =
      ({ warnings := []
         body := [env.starttag node,
           if node.link then
             "<a href=\"" ++ env.encode refname ++ "\">" ++
               env.encode (if pyTruthyStr node.alt then node.alt.getD ""
                 else pyReprStrList node.module) ++ "</a>\n"
           else
             "<img src=\"" ++ env.encode refname ++ "\" alt=\"" ++
               env.encode (if pyTruthyStr node.alt then node.alt.getD ""
                 else pyReprStrList node.module) ++ "\" />\n",
           "</p>\n"]
         skip := true }, st') := by
  unfold html_visit
  rw [h, ← altOrModule_eq]

/-- Witness for C10: a successful graphviz render of a node with no
options set; the image tag's alt text falls back to the module list. -/
theorem html_visit_markup_witness :
    html_visit env0 fs0 node0 =
      ({ warnings := []
         body := ["<p class=\"sadisplay\">",
           "<img src=\"_images/sadisplay-da39a3ee5e6b4b0d3255bfef95601890afd80709.png\" alt=\"[]\" />\n",
           "</p>\n"]
         skip := true },
       { files := ["/out/_images/sadisplay-da39a3ee5e6b4b0d3255bfef95601890afd80709.png"],
         launches := 1 }) :=
  html_visit_markup env0 fs0 node0
    "_images/sadisplay-da39a3ee5e6b4b0d3255bfef95601890afd80709.png"
    { files := ["/out/_images/sadisplay-da39a3ee5e6b4b0d3255bfef95601890afd80709.png"],
      launches := 1 } rfl
